import Mathlib

/-!
Verification development for the FastAPI-LangGraph-MCP starter service.

The definitions below are a shallow embedding of the repository's Python
sources: the agent loop and its node functions (src/app/agent/nodes.py,
src/app/agent/graph.py, src/app/agent/state.py), the streaming event
emitter (src/app/api/streaming.py), and the built-in tools: the calculator
(src/app/mcp/tools/calculator.py), the in-memory TODO store
(src/app/mcp/tools/todo_simple.py) and the weather client
(src/app/mcp/tools/weather.py).

Machine floats from the Python sources are embedded as rationals (the
values exercised here are exactly representable); external effects (the
HTTP transport of the weather client, the model backend, the graph
runtime) are abstracted into explicit input data.
-/

deriving instance DecidableEq for Except

set_option maxRecDepth 8000

namespace Spec2Proof

/-! ## Conversation data model (src/app/agent/state.py and langchain message types)

A langchain message is embedded by its role, its text content, its list of
tool calls (populated only on assistant messages; other roles do not carry
the tool_calls attribute), and, for tool messages, the originating tool
name and tool_call_id. -/

inductive Role where
  | user
  | assistant
  | tool
deriving DecidableEq, Repr

structure ToolCall where
  id : String
  name : String
  args : String
deriving DecidableEq, Repr

structure Message where
  role : Role
  content : String
  toolCalls : List ToolCall
  toolName : Option String
  toolResultFor : Option String
deriving DecidableEq, Repr

/-- AgentState from src/app/agent/state.py: the ordered message history plus
a session identifier. -/
structure AgentState where
  messages : List Message
  sessionId : String
deriving DecidableEq, Repr

/-! ## should_continue (src/app/agent/nodes.py, lines 176-194) -/

/-- Python hasattr check: among the embedded message kinds only assistant
(AIMessage) carries the tool_calls attribute. -/
def hasToolCallsAttr (m : Message) : Bool :=
  m.role == Role.assistant

/-- should_continue from src/app/agent/nodes.py. It reads messages[-1] and
returns "continue" when the last message has a non-empty tool_calls list,
"end" otherwise. The Python IndexError on an empty history is embedded as
none. -/
def should_continue (state : AgentState) : Option String :=
  match state.messages.getLast? with
  | none => none
  | some last =>
      if hasToolCallsAttr last && !last.toolCalls.isEmpty then some "continue"
      else some "end"

/-! ## call_model (src/app/agent/nodes.py, lines 83-173)

The LLM invocation is abstracted into its outcome: either the backend
returns a response message, or the call raises with some error text. The
function returns the list of messages appended to the state. -/

inductive BackendOutcome where
  | success (response : Message)
  | failure (errText : String)
deriving DecidableEq, Repr

def apologyText : String :=
  "I apologize, but I encountered an issue processing your request. Please try again."

/-- call_model from src/app/agent/nodes.py: an empty response (no content,
no tool calls) is replaced by an apology AIMessage; an exception from the
backend is caught and replaced by an AIMessage whose content is
"Error: " followed by the exception text. In both replacement cases the
returned assistant message carries no tool calls. -/
def call_model (outcome : BackendOutcome) : List Message :=
  match outcome with
  | BackendOutcome.success response =>
      if response.content = "" && response.toolCalls.isEmpty then
        [⟨Role.assistant, apologyText, [], none, none⟩]
      else
        [response]
  | BackendOutcome.failure e =>
      [⟨Role.assistant, "Error: " ++ e, [], none, none⟩]

/-! ## In-memory TODO store (src/app/mcp/tools/todo_simple.py)

The module-level dict _todos (insertion-ordered, keyed by id) and counter
_next_id are embedded as an explicit store threaded through the four
operations. Python ValueError on a missing id becomes an Except error. -/

structure TodoItem where
  id : Nat
  task : String
  completed : Bool
deriving DecidableEq, Repr

structure TodoStore where
  todos : List TodoItem
  nextId : Nat
deriving DecidableEq, Repr

/-- The store at module load: _todos empty, _next_id = 1. -/
def initialStore : TodoStore := ⟨[], 1⟩

inductive TodoErr where
  | notFound (id : Nat)
deriving DecidableEq, Repr

/-- add_todo: build the item with id _next_id, insert it (dict insertion
order puts it last), increment the counter, return the item. -/
def add_todo (task : String) (s : TodoStore) : TodoItem × TodoStore :=
  let item : TodoItem := ⟨s.nextId, task, false⟩
  (item, ⟨s.todos ++ [item], s.nextId + 1⟩)

/-- list_todos: list(_todos.values()), i.e. all items in insertion order. -/
def list_todos (s : TodoStore) : List TodoItem :=
  s.todos

/-- complete_todo: raises when the id is absent; otherwise sets the item's
completed flag in place (position in the dict preserved) and returns the
updated item. -/
def complete_todo (todoId : Nat) (s : TodoStore) : Except TodoErr (TodoItem × TodoStore) :=
  match s.todos.find? (fun t => t.id == todoId) with
  | none => Except.error (TodoErr.notFound todoId)
  | some t =>
      let updated : TodoItem := ⟨t.id, t.task, true⟩
      Except.ok (updated, ⟨s.todos.map (fun u => if u.id == todoId then updated else u), s.nextId⟩)

/-- delete_todo: raises when the id is absent; otherwise removes the item
(other items keep their order) and returns a success message. -/
def delete_todo (todoId : Nat) (s : TodoStore) : Except TodoErr (String × TodoStore) :=
  if s.todos.any (fun t => t.id == todoId) then
    Except.ok ("TODO " ++ toString todoId ++ " deleted",
      ⟨s.todos.filter (fun t => !(t.id == todoId)), s.nextId⟩)
  else
    Except.error (TodoErr.notFound todoId)

/-! Operation traces over the TODO store, used to state the id-freshness
invariant: run a list of operations from a store, collecting every id that
add_todo assigns along the way. A complete or delete on a missing id
raises in Python and leaves the store unchanged. -/

inductive TodoOp where
  | add (task : String)
  | complete (id : Nat)
  | delete (id : Nat)
deriving DecidableEq, Repr

def applyOp (op : TodoOp) (s : TodoStore) : TodoStore × Option Nat :=
  match op with
  | TodoOp.add task =>
      let r := add_todo task s
      (r.2, some r.1.id)
  | TodoOp.complete i =>
      match complete_todo i s with
      | Except.ok r => (r.2, none)
      | Except.error _ => (s, none)
  | TodoOp.delete i =>
      match delete_todo i s with
      | Except.ok r => (r.2, none)
      | Except.error _ => (s, none)

def runOps : List TodoOp → TodoStore → TodoStore × List Nat
  | [], s => (s, [])
  | op :: rest, s =>
      let step := applyOp op s
      let tailRun := runOps rest step.1
      (tailRun.1, step.2.toList ++ tailRun.2)

/-! ## Calculator (src/app/mcp/tools/calculator.py)

The tool parses its input with Python ast.parse in eval mode and walks the
tree with _eval_expr, which supports Constant, BinOp and UnaryOp nodes
whose operator is a key of the OPERATORS dict: Add, Sub, Mult, Div, Pow
(the ** token) and USub. Any other node or operator raises ValueError.

The embedding reproduces the Python tokenizer and expression grammar for
the fragment reachable with numbers, identifiers, parentheses and the
arithmetic and bitwise operator tokens; other Python syntax (strings,
calls, comparisons, ...) is outside the modelled input space. Numeric
literals and arithmetic are over rationals. -/

inductive PyOp where
  | addOp
  | subOp
  | multOp
  | divOp
  | powOp
  | modOp
  | floorDivOp
  | bitXorOp
  | bitAndOp
  | bitOrOp
  | lshiftOp
  | rshiftOp
deriving DecidableEq, Repr

inductive PyUnaryOp where
  | uSubOp
  | uAddOp
  | invertOp
deriving DecidableEq, Repr

inductive PyExpr where
  | constant (v : Rat)
  | nameRef (s : String)
  | binOp (l : PyExpr) (op : PyOp) (r : PyExpr)
  | unaryOp (op : PyUnaryOp) (e : PyExpr)
deriving DecidableEq, Repr

/-! Tokenizer for the modelled fragment. An unrecognised character is a
SyntaxError, as in Python. -/

inductive Tok where
  | num (v : Rat)
  | ident (s : String)
  | plus
  | minus
  | star
  | dstar
  | slash
  | dslash
  | percent
  | caret
  | amp
  | pipe
  | tilde
  | lshiftT
  | rshiftT
  | lparen
  | rparen
deriving DecidableEq, Repr

def digitVal (c : Char) : Nat := c.toNat - 48

/-- Read a maximal run of digits, returning its value, its length and the
remaining characters. -/
def readDigitsCnt : List Char → Nat × Nat × List Char
  | [] => (0, 0, [])
  | c :: rest =>
      if c.isDigit then
        let r := readDigitsCnt rest
        (digitVal c * 10 ^ r.2.1 + r.1, r.2.1 + 1, r.2.2)
      else
        (0, 0, c :: rest)

/-- Read a numeric literal (digits, optionally a decimal point and more
digits), as a rational. -/
def readNumber (cs : List Char) : Except String (Rat × List Char) :=
  let ri := readDigitsCnt cs
  match ri.2.2 with
  | '.' :: r2 =>
      let rf := readDigitsCnt r2
      if ri.2.1 = 0 && rf.2.1 = 0 then Except.error "invalid number"
      else Except.ok ((ri.1 : Rat) + (rf.1 : Rat) / (10 : Rat) ^ rf.2.1, rf.2.2)
  | _ =>
      if ri.2.1 = 0 then Except.error "invalid number"
      else Except.ok ((ri.1 : Rat), ri.2.2)

/-- Read a maximal identifier run (letters, digits, underscore). -/
def readIdent : List Char → String × List Char
  | [] => ("", [])
  | c :: rest =>
      if c.isAlphanum || c = '_' then
        let r := readIdent rest
        (String.mk (c :: r.1.toList), r.2)
      else
        ("", c :: rest)

def tokenizeAux : Nat → List Char → Except String (List Tok)
  | 0, _ => Except.error "tokenizer fuel exhausted"
  | _ + 1, [] => Except.ok []
  | fuel + 1, c :: rest =>
      if c = ' ' then tokenizeAux fuel rest
      else if c.isDigit || c = '.' then
        match readNumber (c :: rest) with
        | Except.error e => Except.error e
        | Except.ok r => do
            let ts ← tokenizeAux fuel r.2
            Except.ok (Tok.num r.1 :: ts)
      else if c.isAlpha || c = '_' then
        let r := readIdent (c :: rest)
        do
          let ts ← tokenizeAux fuel r.2
          Except.ok (Tok.ident r.1 :: ts)
      else
        match c, rest with
        | '*', '*' :: r => do
            let ts ← tokenizeAux fuel r
            Except.ok (Tok.dstar :: ts)
        | '*', r => do
            let ts ← tokenizeAux fuel r
            Except.ok (Tok.star :: ts)
        | '/', '/' :: r => do
            let ts ← tokenizeAux fuel r
            Except.ok (Tok.dslash :: ts)
        | '/', r => do
            let ts ← tokenizeAux fuel r
            Except.ok (Tok.slash :: ts)
        | '<', '<' :: r => do
            let ts ← tokenizeAux fuel r
            Except.ok (Tok.lshiftT :: ts)
        | '>', '>' :: r => do
            let ts ← tokenizeAux fuel r
            Except.ok (Tok.rshiftT :: ts)
        | '+', r => do
            let ts ← tokenizeAux fuel r
            Except.ok (Tok.plus :: ts)
        | '-', r => do
            let ts ← tokenizeAux fuel r
            Except.ok (Tok.minus :: ts)
        | '%', r => do
            let ts ← tokenizeAux fuel r
            Except.ok (Tok.percent :: ts)
        | '^', r => do
            let ts ← tokenizeAux fuel r
            Except.ok (Tok.caret :: ts)
        | '&', r => do
            let ts ← tokenizeAux fuel r
            Except.ok (Tok.amp :: ts)
        | '|', r => do
            let ts ← tokenizeAux fuel r
            Except.ok (Tok.pipe :: ts)
        | '~', r => do
            let ts ← tokenizeAux fuel r
            Except.ok (Tok.tilde :: ts)
        | '(', r => do
            let ts ← tokenizeAux fuel r
            Except.ok (Tok.lparen :: ts)
        | ')', r => do
            let ts ← tokenizeAux fuel r
            Except.ok (Tok.rparen :: ts)
        | _, _ => Except.error "invalid character"

def tokenize (s : String) : Except String (List Tok) :=
  tokenizeAux (s.length + 1) s.toList

/-- Binary operator token, its AST operator and its Python precedence
level (BitOr lowest, then BitXor, BitAnd, shifts, additive,
multiplicative). The ** token is handled separately (it binds tighter
than unary minus on its left). -/
def opInfo : Tok → Option (PyOp × Nat)
  | Tok.pipe => some (PyOp.bitOrOp, 1)
  | Tok.caret => some (PyOp.bitXorOp, 2)
  | Tok.amp => some (PyOp.bitAndOp, 3)
  | Tok.lshiftT => some (PyOp.lshiftOp, 4)
  | Tok.rshiftT => some (PyOp.rshiftOp, 4)
  | Tok.plus => some (PyOp.addOp, 5)
  | Tok.minus => some (PyOp.subOp, 5)
  | Tok.star => some (PyOp.multOp, 6)
  | Tok.slash => some (PyOp.divOp, 6)
  | Tok.dslash => some (PyOp.floorDivOp, 6)
  | Tok.percent => some (PyOp.modOp, 6)
  | _ => none

mutual

/-- Precedence-climbing parse of a (left-associative) binary expression at
the given minimum precedence. -/
def parseBin : Nat → Nat → List Tok → Except String (PyExpr × List Tok)
  | 0, _, _ => Except.error "parser fuel exhausted"
  | fuel + 1, minPrec, ts => do
      let r ← parseUnaryLv fuel ts
      parseBinLoop fuel minPrec r.1 r.2

def parseBinLoop : Nat → Nat → PyExpr → List Tok → Except String (PyExpr × List Tok)
  | 0, _, _, _ => Except.error "parser fuel exhausted"
  | fuel + 1, minPrec, lhs, ts =>
      match ts with
      | t :: r =>
          match opInfo t with
          | some oi =>
              if minPrec ≤ oi.2 then do
                let rhs ← parseBin fuel (oi.2 + 1) r
                parseBinLoop fuel minPrec (PyExpr.binOp lhs oi.1 rhs.1) rhs.2
              else
                Except.ok (lhs, ts)
          | none => Except.ok (lhs, ts)
      | [] => Except.ok (lhs, ts)

/-- Unary level: Python factor, i.e. a possibly repeated unary plus, minus
or invert in front of a power. -/
def parseUnaryLv : Nat → List Tok → Except String (PyExpr × List Tok)
  | 0, _ => Except.error "parser fuel exhausted"
  | fuel + 1, ts =>
      match ts with
      | Tok.minus :: r => do
          let e ← parseUnaryLv fuel r
          Except.ok (PyExpr.unaryOp PyUnaryOp.uSubOp e.1, e.2)
      | Tok.plus :: r => do
          let e ← parseUnaryLv fuel r
          Except.ok (PyExpr.unaryOp PyUnaryOp.uAddOp e.1, e.2)
      | Tok.tilde :: r => do
          let e ← parseUnaryLv fuel r
          Except.ok (PyExpr.unaryOp PyUnaryOp.invertOp e.1, e.2)
      | _ => parsePowerLv fuel ts

/-- Power level: an atom, optionally followed by ** and a factor (so ** is
right-associative and its right operand may be signed). -/
def parsePowerLv : Nat → List Tok → Except String (PyExpr × List Tok)
  | 0, _ => Except.error "parser fuel exhausted"
  | fuel + 1, ts => do
      let b ← parseAtomLv fuel ts
      match b.2 with
      | Tok.dstar :: r => do
          let e ← parseUnaryLv fuel r
          Except.ok (PyExpr.binOp b.1 PyOp.powOp e.1, e.2)
      | _ => Except.ok b

def parseAtomLv : Nat → List Tok → Except String (PyExpr × List Tok)
  | 0, _ => Except.error "parser fuel exhausted"
  | fuel + 1, ts =>
      match ts with
      | Tok.num v :: r => Except.ok (PyExpr.constant v, r)
      | Tok.ident s :: r => Except.ok (PyExpr.nameRef s, r)
      | Tok.lparen :: r => do
          let e ← parseBin fuel 0 r
          match e.2 with
          | Tok.rparen :: r2 => Except.ok (e.1, r2)
          | _ => Except.error "expected closing parenthesis"
      | _ => Except.error "unexpected token"

end

/-- ast.parse in eval mode over the modelled fragment: tokenize, parse one
expression, require the whole input consumed. An error is a Python
SyntaxError. -/
def pyParse (s : String) : Except String PyExpr := do
  let ts ← tokenize s
  let r ← parseBin (4 * ts.length + 8) 0 ts
  match r.2 with
  | [] => Except.ok r.1
  | _ => Except.error "unexpected trailing input"

/-! Evaluation: _eval_expr and calculate. -/

inductive EvalErr where
  | zeroDivision
  | valueErr (msg : String)
deriving DecidableEq, Repr

/-- Python float ** embedded on rationals. An integer exponent follows
operator.pow exactly (0.0 to a negative power raises ZeroDivisionError); a
non-integer exponent would leave the rationals (float or complex in
Python) and is kept outside the modelled value space. No claim exercises
that region. -/
def evalPowFn (a b : Rat) : Except EvalErr Rat :=
  if b.den = 1 then
    if a = 0 && b.num < 0 then Except.error EvalErr.zeroDivision
    else Except.ok (a ^ b.num)
  else Except.error (EvalErr.valueErr "non-integer exponent outside modelled values")

/-- The OPERATORS dict of calculator.py for binary nodes: only Add, Sub,
Mult, Div and Pow are present; every other operator looks up to None. -/
def opFun : PyOp → Option (Rat → Rat → Except EvalErr Rat)
  | PyOp.addOp => some (fun a b => Except.ok (a + b))
  | PyOp.subOp => some (fun a b => Except.ok (a - b))
  | PyOp.multOp => some (fun a b => Except.ok (a * b))
  | PyOp.divOp => some (fun a b =>
      if b = 0 then Except.error EvalErr.zeroDivision else Except.ok (a / b))
  | PyOp.powOp => some evalPowFn
  | _ => none

/-- The OPERATORS dict for unary nodes: only USub is present. -/
def unaryFun : PyUnaryOp → Option (Rat → Rat)
  | PyUnaryOp.uSubOp => some (fun a => -a)
  | _ => none

/-- _eval_expr from calculator.py: constants evaluate to their float
value; BinOp evaluates left then right then looks up the operator,
raising ValueError when it is unsupported; UnaryOp likewise; any other
node kind raises ValueError. -/
def evalExpr : PyExpr → Except EvalErr Rat
  | PyExpr.constant v => Except.ok v
  | PyExpr.nameRef _ => Except.error (EvalErr.valueErr "Unsupported expression type: Name")
  | PyExpr.binOp l op r => do
      let a ← evalExpr l
      let b ← evalExpr r
      match opFun op with
      | none => Except.error (EvalErr.valueErr "Unsupported operator")
      | some f => f a b
  | PyExpr.unaryOp op e => do
      let a ← evalExpr e
      match unaryFun op with
      | none => Except.error (EvalErr.valueErr "Unsupported unary operator")
      | some f => Except.ok (f a)

structure CalcResult where
  expression : String
  result : Rat
deriving DecidableEq, Repr

/-- The three ValueError shapes raised by calculate, distinguished by
their message prefix in the source: "Invalid expression syntax" from the
SyntaxError handler, "Division by zero" from the ZeroDivisionError
handler, "Calculation error" from the generic Exception handler. -/
inductive CalcFailure where
  | invalidExpression (msg : String)
  | divisionByZero
  | calculationError (msg : String)
deriving DecidableEq, Repr

/-- calculate from calculator.py: parse the expression, evaluate it, and
return the expression together with the result; SyntaxError becomes the
invalid-expression failure, ZeroDivisionError the division-by-zero
failure, and any other exception the generic calculation-error failure. -/
def calculate (expression : String) : Except CalcFailure CalcResult :=
  match pyParse expression with
  | Except.error msg => Except.error (CalcFailure.invalidExpression msg)
  | Except.ok tree =>
      match evalExpr tree with
      | Except.ok result => Except.ok ⟨expression, result⟩
      | Except.error EvalErr.zeroDivision => Except.error CalcFailure.divisionByZero
      | Except.error (EvalErr.valueErr msg) => Except.error (CalcFailure.calculationError msg)

/-! ## Weather tool (src/app/mcp/tools/weather.py)

The HTTP exchange is abstracted into its outcome: a response with a
status code and (for well-formed 200 bodies) the fields the mapping
reads, a timeout, or a transport error. A body missing any required field
(the KeyError and IndexError paths) is embedded as none. -/

structure WeatherBody where
  name : String
  sysCountry : String
  mainTemp : Rat
  mainFeelsLike : Rat
  mainHumidity : Rat
  weatherMain : String
  weatherDescription : String
  windSpeed : Rat
deriving DecidableEq, Repr

inductive HttpOutcome where
  | response (status : Nat) (body : Option WeatherBody)
  | timeout
  | requestError (msg : String)
deriving DecidableEq, Repr

inductive WeatherFailure where
  | cityNotFound
  | invalidCredentials
  | providerError (status : Nat)
  | timeout
  | requestFailed
  | badFormat
deriving DecidableEq, Repr

structure WeatherReport where
  city : String
  country : String
  temperature : Rat
  feelsLike : Rat
  condition : String
  description : String
  humidity : Rat
  windSpeed : Rat
deriving DecidableEq, Repr

/-- get_weather from weather.py applied to the outcome of its single HTTP
request: 404 raises city-not-found, 401 invalid-api-key, any other
non-200 a provider error, a timeout and a transport error their own
ValueErrors, and a 200 response is mapped field by field into the
eight-field report. The city argument only parametrises the request and
the 404 message text. -/
def get_weather (_city : String) (outcome : HttpOutcome) : Except WeatherFailure WeatherReport :=
  match outcome with
  | HttpOutcome.timeout => Except.error WeatherFailure.timeout
  | HttpOutcome.requestError _ => Except.error WeatherFailure.requestFailed
  | HttpOutcome.response status body =>
      if status = 404 then Except.error WeatherFailure.cityNotFound
      else if status = 401 then Except.error WeatherFailure.invalidCredentials
      else if status ≠ 200 then Except.error (WeatherFailure.providerError status)
      else
        match body with
        | none => Except.error WeatherFailure.badFormat
        | some b =>
            Except.ok ⟨b.name, b.sysCountry, b.mainTemp, b.mainFeelsLike,
              b.weatherMain, b.weatherDescription, b.mainHumidity, b.windSpeed⟩

/-! ## Streaming event emitter (src/app/api/streaming.py)

stream_agent_response is an async generator over graph.astream events.
Each event is a mapping from a node name to the node's output messages;
the generator projects each into stream events, appends one done event
when iteration finishes, and replaces the tail of the stream with a
single error event when iteration raises. The THOUGHT member of
StreamEventType is declared in the source but never emitted. -/

inductive StreamEvent where
  | toolCallE (name : String) (args : String)
  | toolResultE (tool : String) (result : String)
  | answerE (content : String)
  | errorE (msg : String)
  | doneE
deriving DecidableEq, Repr

structure GraphEvent where
  nodeName : String
  messages : List Message
deriving DecidableEq, Repr

/-- The per-event projection of stream_agent_response: an agent event
whose last message is an AIMessage yields one tool_call event per tool
call when there are any, else one answer event when the content is
non-empty; a tools event yields one tool_result event per ToolMessage in
its output. -/
def nodeEvents (ev : GraphEvent) : List StreamEvent :=
  if ev.nodeName = "agent" then
    match ev.messages.getLast? with
    | none => []
    | some last =>
        if last.role == Role.assistant then
          if !last.toolCalls.isEmpty then
            last.toolCalls.map (fun tc => StreamEvent.toolCallE tc.name tc.args)
          else if last.content ≠ "" then [StreamEvent.answerE last.content]
          else []
        else []
  else if ev.nodeName = "tools" then
    (ev.messages.filter (fun m => m.role == Role.tool)).map
      (fun m => StreamEvent.toolResultE (m.toolName.getD "unknown") m.content)
  else []

/-- A complete run of the graph iteration as the generator observes it:
either the iterator is exhausted normally, or it raises after yielding a
prefix of events. -/
inductive GraphRun where
  | success (events : List GraphEvent)
  | failure (events : List GraphEvent) (errMsg : String)
deriving DecidableEq, Repr

/-- stream_agent_response from streaming.py as the total event sequence
it yields for one run. -/
def stream_agent_response : GraphRun → List StreamEvent
  | GraphRun.success evs => (evs.map nodeEvents).flatten ++ [StreamEvent.doneE]
  | GraphRun.failure evs msg => (evs.map nodeEvents).flatten ++ [StreamEvent.errorE msg]

def isErrorEvent : StreamEvent → Bool
  | StreamEvent.errorE _ => true
  | _ => false

def isDoneEvent : StreamEvent → Bool
  | StreamEvent.doneE => true
  | _ => false

/-! ## Agent loop with step limit

Modelled from the spec: the DECIDING and ACTING execution engine and its
bounded-iteration guard live in the graph runtime produced by
workflow.compile in src/app/agent/graph.py (and in the prebuilt ToolNode
of src/app/agent/nodes.py); that runtime is not part of the repository
sources. Per the spec, an ACTING step executes every tool_request of the
just-appended assistant message in order, appending exactly one tool
Message each, and a configurable maximum number of DECIDING-ACTING round
trips is enforced, exceeding which the loop ends FAILED with a
step-limit-exceeded reason. -/

/-- Modelled from the spec: the Tool Executor invoked by the ACTING step
(langgraph's prebuilt ToolNode, not under src) always yields exactly one
tool Message for a tool request, carrying the tool's name and the
originating request id. The tool's textual result is abstracted as a
function of the request. -/
def execute_tool_request (runTool : ToolCall → String) (tc : ToolCall) : Message :=
  ⟨Role.tool, runTool tc, [], some tc.name, some tc.id⟩

/-- Modelled from the spec: the ACTING step (executed by the graph
runtime, not under src) walks the tool requests of the just-appended
assistant message in order, appending each resulting tool Message to the
history. -/
def acting_step (runTool : ToolCall → String) : List ToolCall → List Message → List Message
  | [], history => history
  | tc :: rest, history => acting_step runTool rest (history ++ [execute_tool_request runTool tc])

inductive LoopResult where
  | doneR (answer : String)
  | failedR (reason : String)
deriving DecidableEq, Repr

structure LoopOutcome where
  result : LoopResult
  history : List Message
  rounds : Nat
deriving DecidableEq, Repr

/-- Modelled from the spec: the default round-trip bound suggested by the
spec (the repository exposes no setting for it). -/
def default_max_rounds : Nat := 25

/-- Modelled from the spec: the agent loop run by the compiled graph (the
runtime loop is not under src). Each iteration appends the model's
assistant message; an empty tool_requests list ends the turn DONE with
that message's content, otherwise a DECIDING-ACTING round trip is spent
executing the requests, and when no round trips remain the loop ends
FAILED with the step-limit-exceeded reason. The rounds field counts the
completed round trips. -/
def agent_loop (model : List Message → Message) (runTool : ToolCall → String) :
    Nat → List Message → LoopOutcome
  | maxRounds, history =>
      let response := model history
      let h2 := history ++ [response]
      if response.toolCalls.isEmpty then ⟨LoopResult.doneR response.content, h2, 0⟩
      else
        match maxRounds with
        | 0 => ⟨LoopResult.failedR "StepLimitExceeded", h2, 0⟩
        | r + 1 =>
            let o := agent_loop model runTool r (acting_step runTool response.toolCalls h2)
            ⟨o.result, o.history, o.rounds + 1⟩

/-! ## Theorems -/

/-- C6: the spec states that calculate accepts the caret as the power
operator and that calculate of the string 2 ^ 3 returns 8.0. On the code
the caret parses to the BitXor operator, which the OPERATORS dict of
calculator.py does not contain, so the call fails with the generic
calculation-error ValueError, even though the docstrings of calculate and
of the agent tool wrappers advertise the caret as power. The power
operator the code actually accepts is the double star, as the second
conjunct (and the repository's own test suite) shows. -/
theorem calculate_caret_not_power :
    calculate "2 ^ 3" = Except.error (CalcFailure.calculationError "Unsupported operator") ∧
    calculate "2 ** 3" = Except.ok ⟨"2 ** 3", 8⟩ := by
  constructor
  · rfl
  · with_unfolding_all decide

/-- C7: calculate of 5 / 0 fails with the division-by-zero kind and
calculate of 2 + fails with the invalid-expression kind; in general every
parse failure yields the invalid-expression kind and every evaluation
that divides by zero yields the division-by-zero kind, never an uncaught
fault or another kind. -/
theorem calculate_failure_taxonomy :
    calculate "5 / 0" = Except.error CalcFailure.divisionByZero ∧
    calculate "2 +" = Except.error (CalcFailure.invalidExpression "unexpected token") ∧
    (∀ s m, pyParse s = Except.error m →
      calculate s = Except.error (CalcFailure.invalidExpression m)) ∧
    (∀ s t, pyParse s = Except.ok t → evalExpr t = Except.error EvalErr.zeroDivision →
      calculate s = Except.error CalcFailure.divisionByZero) := by
  refine ⟨by rfl, by rfl, ?_, ?_⟩
  · intro s m h
    simp only [calculate, h]
  · intro s t h1 h2
    simp only [calculate, h1, h2]

/-- C7 witness: the two universally quantified parts of the taxonomy
applied at concrete inputs. -/
theorem calculate_failure_taxonomy_witness :
    calculate "(" = Except.error (CalcFailure.invalidExpression "unexpected token") ∧
    calculate "(2)/(3-3)" = Except.error CalcFailure.divisionByZero :=
  ⟨calculate_failure_taxonomy.2.2.1 "(" "unexpected token" (by rfl),
   calculate_failure_taxonomy.2.2.2 "(2)/(3-3)"
     (PyExpr.binOp (PyExpr.constant 2) PyOp.divOp
       (PyExpr.binOp (PyExpr.constant 3) PyOp.subOp (PyExpr.constant 3)))
     (by with_unfolding_all decide) (by with_unfolding_all decide)⟩

/-- C8: the TODO round trip from the empty store: the first add returns
id 1 and completed false, the second add returns id 2, complete of 1
flips the flag and leaves the task text (and the item's position)
unchanged, complete of 999 fails not-found, delete of 1 removes the item
so the following list excludes id 1, delete of 999 fails not-found, and
list returns all current items in insertion order (an add appends its
item at the end of the listing). -/
theorem todo_round_trip :
    (add_todo "Buy milk" initialStore).1 = ⟨1, "Buy milk", false⟩ ∧
    (add_todo "Walk dog" (add_todo "Buy milk" initialStore).2).1 = ⟨2, "Walk dog", false⟩ ∧
    complete_todo 1 (add_todo "Walk dog" (add_todo "Buy milk" initialStore).2).2 =
      Except.ok (⟨1, "Buy milk", true⟩,
        ⟨[⟨1, "Buy milk", true⟩, ⟨2, "Walk dog", false⟩], 3⟩) ∧
    complete_todo 999 (add_todo "Walk dog" (add_todo "Buy milk" initialStore).2).2 =
      Except.error (TodoErr.notFound 999) ∧
    delete_todo 1 ⟨[⟨1, "Buy milk", true⟩, ⟨2, "Walk dog", false⟩], 3⟩ =
      Except.ok ("TODO 1 deleted", ⟨[⟨2, "Walk dog", false⟩], 3⟩) ∧
    (list_todos ⟨[⟨2, "Walk dog", false⟩], 3⟩).all (fun t => !(t.id == 1)) = true ∧
    delete_todo 999 ⟨[⟨2, "Walk dog", false⟩], 3⟩ = Except.error (TodoErr.notFound 999) ∧
    (∀ s task, list_todos (add_todo task s).2 = list_todos s ++ [(add_todo task s).1]) := by
  refine ⟨by decide, by decide, by decide, by decide, by decide, by decide, by decide, ?_⟩
  intro s task
  rfl

/-- C8 witness: the insertion-order conjunct applied at a concrete store. -/
theorem todo_round_trip_witness :
    list_todos (add_todo "Buy milk" initialStore).2 =
      list_todos initialStore ++ [(add_todo "Buy milk" initialStore).1] :=
  todo_round_trip.2.2.2.2.2.2.2 initialStore "Buy milk"

/-- complete_todo never changes the id counter. -/
theorem complete_todo_nextId (i : Nat) (s : TodoStore) (r : TodoItem × TodoStore)
    (h : complete_todo i s = Except.ok r) : r.2.nextId = s.nextId := by
  unfold complete_todo at h
  cases hf : s.todos.find? (fun t => t.id == i) with
  | none => rw [hf] at h; cases h
  | some t => rw [hf] at h; cases h; rfl

/-- delete_todo never changes the id counter. -/
theorem delete_todo_nextId (i : Nat) (s : TodoStore) (r : String × TodoStore)
    (h : delete_todo i s = Except.ok r) : r.2.nextId = s.nextId := by
  unfold delete_todo at h
  by_cases ha : s.todos.any (fun t => t.id == i)
  · rw [if_pos ha] at h; cases h; rfl
  · rw [if_neg ha] at h; cases h

/-- Ids assigned along a trace are bounded below by the starting counter
and strictly increasing. -/
theorem runOps_ids_bounded (ops : List TodoOp) (s : TodoStore) :
    (∀ i ∈ (runOps ops s).2, s.nextId ≤ i) ∧ (runOps ops s).2.Pairwise (· < ·) := by
  induction ops generalizing s with
  | nil => simp [runOps]
  | cons op rest ih =>
      have hnext : s.nextId ≤ (applyOp op s).1.nextId := by
        cases op with
        | add task => simp [applyOp, add_todo]
        | complete i =>
            simp only [applyOp]
            cases hc : complete_todo i s with
            | ok r => simp [complete_todo_nextId i s r hc]
            | error e => simp
        | delete i =>
            simp only [applyOp]
            cases hc : delete_todo i s with
            | ok r => simp [delete_todo_nextId i s r hc]
            | error e => simp
      have ih2 := ih (applyOp op s).1
      cases op with
      | add task =>
          have hstep : applyOp (TodoOp.add task) s =
              ((add_todo task s).2, some s.nextId) := rfl
          constructor
          · intro i hi
            simp only [runOps, hstep, Option.toList, List.mem_append, List.mem_singleton,
              List.mem_cons, List.not_mem_nil, or_false] at hi
            cases hi with
            | inl h => omega
            | inr h =>
                have := ih2.1 i h
                have hn : (applyOp (TodoOp.add task) s).1.nextId = s.nextId + 1 := rfl
                omega
          · simp only [runOps, hstep, Option.toList, List.pairwise_cons, List.singleton_append]
            constructor
            · intro i hi
              have := ih2.1 i hi
              have hn : (applyOp (TodoOp.add task) s).1.nextId = s.nextId + 1 := rfl
              omega
            · exact ih2.2
      | complete i =>
          have hnone : (applyOp (TodoOp.complete i) s).2 = none := by
            simp only [applyOp]
            cases complete_todo i s <;> simp
          constructor
          · intro j hj
            simp only [runOps, hnone, Option.toList, List.nil_append] at hj
            exact le_trans hnext (ih2.1 j hj)
          · simp only [runOps, hnone, Option.toList, List.nil_append]
            exact ih2.2
      | delete i =>
          have hnone : (applyOp (TodoOp.delete i) s).2 = none := by
            simp only [applyOp]
            cases delete_todo i s <;> simp
          constructor
          · intro j hj
            simp only [runOps, hnone, Option.toList, List.nil_append] at hj
            exact le_trans hnext (ih2.1 j hj)
          · simp only [runOps, hnone, Option.toList, List.nil_append]
            exact ih2.2

/-- C10: along any trace of operations from the module's initial store,
the ids assigned by add_todo are strictly increasing and never reused,
even across deletes; concretely, after add, add, delete of 1, the next
add returns id 3. -/
theorem todo_ids_strictly_increasing (ops : List TodoOp) :
    (runOps ops initialStore).2.Pairwise (· < ·) ∧
    (runOps [TodoOp.add "a", TodoOp.add "b", TodoOp.delete 1, TodoOp.add "c"]
      initialStore).2 = [1, 2, 3] :=
  ⟨(runOps_ids_bounded ops initialStore).2, by decide⟩

/-- C10 witness: the freshness theorem applied at a concrete trace. -/
theorem todo_ids_strictly_increasing_witness :
    (runOps [TodoOp.add "a", TodoOp.delete 1, TodoOp.add "b"]
      initialStore).2.Pairwise (· < ·) :=
  (todo_ids_strictly_increasing [TodoOp.add "a", TodoOp.delete 1, TodoOp.add "b"]).1

/-- C9: get_weather maps a provider 404 to the city-not-found failure, a
401 to invalid-credentials, a timeout to the timeout failure, any other
non-200 status to a provider error, and a 200 response with a well-formed
body to exactly the eight mapped fields with the provider's values passed
through unchanged. -/
theorem get_weather_response_mapping (city : String) (b : Option WeatherBody)
    (status : Nat) (body : WeatherBody) :
    get_weather city (HttpOutcome.response 404 b) = Except.error WeatherFailure.cityNotFound ∧
    get_weather city (HttpOutcome.response 401 b) = Except.error WeatherFailure.invalidCredentials ∧
    get_weather city HttpOutcome.timeout = Except.error WeatherFailure.timeout ∧
    (status ≠ 404 → status ≠ 401 → status ≠ 200 →
      get_weather city (HttpOutcome.response status b) =
        Except.error (WeatherFailure.providerError status)) ∧
    get_weather city (HttpOutcome.response 200 (some body)) =
      Except.ok ⟨body.name, body.sysCountry, body.mainTemp, body.mainFeelsLike,
        body.weatherMain, body.weatherDescription, body.mainHumidity, body.windSpeed⟩ := by
  refine ⟨rfl, rfl, rfl, ?_, rfl⟩
  intro h1 h2 h3
  simp [get_weather, h1, h2, h3]

/-- The well-formed 200 body of the repository's own weather test. -/
def londonBody : WeatherBody :=
  ⟨"London", "GB", 15.5, 14, 72, "Clouds", "overcast clouds", 5.5⟩

/-- C9 witness: the mapping applied at a 500 response and at the test
body, checking the temperature passthrough 15.5. -/
theorem get_weather_response_mapping_witness :
    get_weather "London" (HttpOutcome.response 500 none) =
      Except.error (WeatherFailure.providerError 500) ∧
    get_weather "London" (HttpOutcome.response 200 (some londonBody)) =
      Except.ok ⟨"London", "GB", 15.5, 14, "Clouds", "overcast clouds", 72, 5.5⟩ :=
  ⟨(get_weather_response_mapping "London" none 500 londonBody).2.2.2.1
      (by decide) (by decide) (by decide),
   (get_weather_response_mapping "London" none 500 londonBody).2.2.2.2⟩

/-- C2: should_continue is a pure function of the last message: whenever
the latest message of the state is an assistant message, the loop is
directed to the tools node exactly when its tool_calls list is non-empty
and to the end otherwise, and two states with the same last message get
the same decision whatever their other fields hold. -/
theorem should_continue_decides_on_last_message (s s2 : AgentState) (m : Message) :
    (s.messages.getLast? = some m → m.role = Role.assistant →
      ((should_continue s = some "continue" ↔ m.toolCalls ≠ []) ∧
       (should_continue s = some "end" ↔ m.toolCalls = []))) ∧
    (s.messages.getLast? = s2.messages.getLast? → should_continue s = should_continue s2) := by
  constructor
  · intro hlast hrole
    simp only [should_continue, hlast, hasToolCallsAttr, hrole]
    cases htc : m.toolCalls with
    | nil => simp
    | cons a t => simp
  · intro h
    simp only [should_continue, h]

def c2state1 : AgentState :=
  ⟨[⟨Role.assistant, "", [⟨"1", "calculate_tool", "2 ** 3"⟩], none, none⟩], "s"⟩

def c2state2 : AgentState :=
  ⟨[⟨Role.assistant, "done", [], none, none⟩], "s"⟩

/-- C2 witness: the decision at a one-tool-call state and at a
no-tool-call state. -/
theorem should_continue_decides_on_last_message_witness :
    should_continue c2state1 = some "continue" ∧ should_continue c2state2 = some "end" :=
  ⟨((should_continue_decides_on_last_message c2state1 c2state1
      ⟨Role.assistant, "", [⟨"1", "calculate_tool", "2 ** 3"⟩], none, none⟩).1 rfl rfl).1.mpr
      (by decide),
   ((should_continue_decides_on_last_message c2state2 c2state2
      ⟨Role.assistant, "done", [], none, none⟩).1 rfl rfl).2.mpr rfl⟩

/-- The message call_model fabricates when the backend raises with the
text "Connection refused". -/
def c4FailureMsg : Message :=
  ⟨Role.assistant, "Error: Connection refused", [], none, none⟩

/-- C4 counterexample: the claim says a failing model backend call ends
the turn FAILED and surfaces as an error event or non-200 response, and
is never converted into an ordinary assistant message that lets the turn
end DONE. On the code, call_model catches the exception and returns an
ordinary assistant message carrying the error text and no tool calls, so
should_continue routes the turn to the end state and the streaming
emitter emits an answer event followed by done: the turn ends DONE with
the error text as the answer. -/
theorem call_model_failure_ends_done_counterexample :
    call_model (BackendOutcome.failure "Connection refused") = [c4FailureMsg] ∧
    c4FailureMsg.role = Role.assistant ∧
    c4FailureMsg.toolCalls = [] ∧
    should_continue ⟨[⟨Role.user, "hi", [], none, none⟩, c4FailureMsg], "s"⟩ = some "end" ∧
    stream_agent_response (GraphRun.success [⟨"agent", [c4FailureMsg]⟩]) =
      [StreamEvent.answerE "Error: Connection refused", StreamEvent.doneE] := by
  refine ⟨rfl, rfl, rfl, by decide, by decide⟩

/-- A message fabricated from an error text is never the empty string. -/
theorem errorText_ne_empty (e : String) : "Error: " ++ e ≠ "" := by
  intro h
  have hlen := congrArg String.length h
  simp [String.length_append] at hlen
  exact absurd hlen.1 (by decide)

/-- C4 amended: for every backend failure text, call_model converts the
failure into a single ordinary assistant message whose content is
"Error: " followed by the text and whose tool_calls list is empty; on any
history extended with it, should_continue directs the turn to the end
state (DONE, not FAILED), and the streaming emitter emits the error text
as an ordinary answer event followed by done rather than an error
event. -/
theorem call_model_failure_becomes_answer (e : String) (hist : List Message) (sid : String) :
    call_model (BackendOutcome.failure e) =
      [⟨Role.assistant, "Error: " ++ e, [], none, none⟩] ∧
    should_continue ⟨hist ++ call_model (BackendOutcome.failure e), sid⟩ = some "end" ∧
    stream_agent_response (GraphRun.success
        [⟨"agent", call_model (BackendOutcome.failure e)⟩]) =
      [StreamEvent.answerE ("Error: " ++ e), StreamEvent.doneE] := by
  refine ⟨rfl, ?_, ?_⟩
  · simp [call_model, should_continue, List.getLast?_concat, hasToolCallsAttr]
  · simp [call_model, stream_agent_response, nodeEvents, errorText_ne_empty e]

/-- C4 witness for the amended statement: a concrete backend failure on a
concrete history. -/
theorem call_model_failure_becomes_answer_witness :
    should_continue ⟨[⟨Role.user, "hi", [], none, none⟩] ++
        call_model (BackendOutcome.failure "boom"), "s"⟩ = some "end" :=
  (call_model_failure_becomes_answer "boom" [⟨Role.user, "hi", [], none, none⟩] "s").2.1

/-- The ACTING step is the history followed by the image of the requests
under the executor. -/
theorem acting_step_eq_append_map (runTool : ToolCall → String)
    (requests : List ToolCall) (history : List Message) :
    acting_step runTool requests history =
      history ++ requests.map (execute_tool_request runTool) := by
  induction requests generalizing history with
  | nil => simp [acting_step]
  | cons tc rest ih =>
      simp [acting_step, ih, List.append_assoc]

/-- C1: one ACTING step appends exactly one tool Message per tool_request
of the preceding assistant message, in request order: the appended
segment is the requests mapped through the executor, its length equals
the number of requests, and the message at each position answers exactly
the request at that position. -/
theorem acting_step_one_tool_message_per_request (runTool : ToolCall → String)
    (requests : List ToolCall) (history : List Message) :
    acting_step runTool requests history =
      history ++ requests.map (execute_tool_request runTool) ∧
    (acting_step runTool requests history).length = history.length + requests.length ∧
    (acting_step runTool requests history).drop history.length =
      requests.map (execute_tool_request runTool) ∧
    (∀ i, (hi : i < requests.length) →
      ((acting_step runTool requests history).drop history.length)[i]? =
        some (execute_tool_request runTool requests[i]) ∧
      (execute_tool_request runTool requests[i]).toolResultFor = some requests[i].id ∧
      (execute_tool_request runTool requests[i]).role = Role.tool) := by
  have hmain := acting_step_eq_append_map runTool requests history
  refine ⟨hmain, ?_, ?_, ?_⟩
  · simp [hmain]
  · simp [hmain]
  · intro i hi
    refine ⟨?_, rfl, rfl⟩
    simp [hmain, List.getElem?_map, List.getElem?_eq_getElem hi]

/-- C1 witness: an ACTING step with two requests on an empty history. -/
theorem acting_step_one_tool_message_per_request_witness :
    acting_step (fun tc => tc.args) [⟨"1", "add_todo_tool", "Buy milk"⟩,
        ⟨"2", "calculate_tool", "2 ** 3"⟩] [] =
      [⟨Role.tool, "Buy milk", [], some "add_todo_tool", some "1"⟩,
       ⟨Role.tool, "2 ** 3", [], some "calculate_tool", some "2"⟩] :=
  (acting_step_one_tool_message_per_request (fun tc => tc.args)
    [⟨"1", "add_todo_tool", "Buy milk"⟩, ⟨"2", "calculate_tool", "2 ** 3"⟩] []).1

/-- C3: for every model backend that always requests at least one tool,
the loop ends FAILED with the step-limit-exceeded reason after exactly
the configured maximum number of DECIDING-ACTING round trips, whatever
the bound and the starting history; and for every backend whatsoever the
number of round trips never exceeds the bound, so the loop never iterates
unboundedly. -/
theorem agent_loop_step_limit :
    (∀ (model : List Message → Message) (runTool : ToolCall → String),
      (∀ h, (model h).toolCalls ≠ []) →
      ∀ (n : Nat) (history : List Message),
        (agent_loop model runTool n history).result = LoopResult.failedR "StepLimitExceeded" ∧
        (agent_loop model runTool n history).rounds = n) ∧
    (∀ (model : List Message → Message) (runTool : ToolCall → String)
        (n : Nat) (history : List Message),
      (agent_loop model runTool n history).rounds ≤ n) := by
  constructor
  · intro model runTool hm n
    induction n with
    | zero =>
        intro history
        cases hc : (model history).toolCalls with
        | nil => exact absurd hc (hm history)
        | cons a t => simp [agent_loop, hc]
    | succ k ih =>
        intro history
        cases hc : (model history).toolCalls with
        | nil => exact absurd hc (hm history)
        | cons a t =>
            have hrec := ih (acting_step runTool (a :: t) (history ++ [model history]))
            simp [agent_loop, hc, hrec.1, hrec.2]
  · intro model runTool n
    induction n with
    | zero =>
        intro history
        cases hc : (model history).toolCalls with
        | nil => simp [agent_loop, hc]
        | cons a t => simp [agent_loop, hc]
    | succ k ih =>
        intro history
        cases hc : (model history).toolCalls with
        | nil => simp [agent_loop, hc]
        | cons a t =>
            have hrec := ih (acting_step runTool (a :: t) (history ++ [model history]))
            simp only [agent_loop, hc, List.isEmpty_cons]
            simpa using Nat.add_le_add_right hrec 1

/-- A backend that always answers with one calculator tool request. -/
def alwaysToolModel : List Message → Message :=
  fun _ => ⟨Role.assistant, "", [⟨"1", "calculate_tool", "2 ** 3"⟩], none, none⟩

/-- C3 witness: the pathological backend at the spec's default bound of
25 round trips. -/
theorem agent_loop_step_limit_witness :
    (agent_loop alwaysToolModel (fun _ => "8.0") default_max_rounds []).result =
      LoopResult.failedR "StepLimitExceeded" ∧
    (agent_loop alwaysToolModel (fun _ => "8.0") default_max_rounds []).rounds =
      default_max_rounds :=
  agent_loop_step_limit.1 alwaysToolModel (fun _ => "8.0")
    (fun _ => List.cons_ne_nil _ _) default_max_rounds []

/-- Every event the per-event projection emits is a tool_call, a
tool_result or an answer, never an error or a done. -/
theorem nodeEvents_mem (ev : GraphEvent) (e : StreamEvent) (he : e ∈ nodeEvents ev) :
    isErrorEvent e = false ∧ isDoneEvent e = false := by
  unfold nodeEvents at he
  split at he
  · split at he
    · simp at he
    · split at he
      · split at he
        · obtain ⟨tc, _, rfl⟩ := List.mem_map.mp he
          exact ⟨rfl, rfl⟩
        · split at he
          · rw [List.mem_singleton] at he
            subst he
            exact ⟨rfl, rfl⟩
          · simp at he
      · simp at he
  · split at he
    · obtain ⟨m, _, rfl⟩ := List.mem_map.mp he
      exact ⟨rfl, rfl⟩
    · simp at he

/-- The per-event projection never emits an error or a done event. -/
theorem nodeEvents_no_terminal (ev : GraphEvent) :
    (nodeEvents ev).countP isErrorEvent = 0 ∧ (nodeEvents ev).countP isDoneEvent = 0 := by
  constructor
  · rw [List.countP_eq_zero]
    intro a ha
    simp [(nodeEvents_mem ev a ha).1]
  · rw [List.countP_eq_zero]
    intro a ha
    simp [(nodeEvents_mem ev a ha).2]

/-- No error or done event appears before the terminating event of a
stream. -/
theorem nodeEvents_flatten_counts (evs : List GraphEvent) :
    ((evs.map nodeEvents).flatten).countP isErrorEvent = 0 ∧
    ((evs.map nodeEvents).flatten).countP isDoneEvent = 0 := by
  induction evs with
  | nil => simp
  | cons e rest ih =>
      simp [List.countP_append, ih.1, ih.2,
        (nodeEvents_no_terminal e).1, (nodeEvents_no_terminal e).2]

/-- C5: a complete run with exactly one tool call yields the event
sequence tool_call, tool_result, answer, done in that order; a run with
zero tool calls yields answer, done; every successful run ends with
exactly one done event and no error event; every failing run ends with
exactly one error event, standing in for done, and no done event. -/
theorem stream_event_protocol (acontent c rc : String) (tc : ToolCall)
    (rname rfor : Option String) (hc : c ≠ "")
    (evs : List GraphEvent) (msg : String) :
    stream_agent_response (GraphRun.success
        [⟨"agent", [⟨Role.assistant, acontent, [tc], none, none⟩]⟩,
         ⟨"tools", [⟨Role.tool, rc, [], rname, rfor⟩]⟩,
         ⟨"agent", [⟨Role.assistant, c, [], none, none⟩]⟩]) =
      [StreamEvent.toolCallE tc.name tc.args,
       StreamEvent.toolResultE (rname.getD "unknown") rc,
       StreamEvent.answerE c, StreamEvent.doneE] ∧
    stream_agent_response (GraphRun.success
        [⟨"agent", [⟨Role.assistant, c, [], none, none⟩]⟩]) =
      [StreamEvent.answerE c, StreamEvent.doneE] ∧
    (stream_agent_response (GraphRun.success evs)).countP isDoneEvent = 1 ∧
    (stream_agent_response (GraphRun.success evs)).countP isErrorEvent = 0 ∧
    (stream_agent_response (GraphRun.success evs)).getLast? = some StreamEvent.doneE ∧
    (stream_agent_response (GraphRun.failure evs msg)).countP isErrorEvent = 1 ∧
    (stream_agent_response (GraphRun.failure evs msg)).countP isDoneEvent = 0 ∧
    (stream_agent_response (GraphRun.failure evs msg)).getLast? =
      some (StreamEvent.errorE msg) := by
  refine ⟨?_, ?_, ?_, ?_, ?_, ?_, ?_, ?_⟩
  · simp [stream_agent_response, nodeEvents, hc]
  · simp [stream_agent_response, nodeEvents, hc]
  · simp [stream_agent_response, List.countP_append,
      (nodeEvents_flatten_counts evs).2, isDoneEvent]
  · simp [stream_agent_response, List.countP_append,
      (nodeEvents_flatten_counts evs).1, isErrorEvent]
  · simp [stream_agent_response, List.getLast?_concat]
  · simp [stream_agent_response, List.countP_append,
      (nodeEvents_flatten_counts evs).1, isErrorEvent]
  · simp [stream_agent_response, List.countP_append,
      (nodeEvents_flatten_counts evs).2, isDoneEvent]
  · simp [stream_agent_response, List.getLast?_concat]

/-- C5 witness: the one-tool-call sequence at concrete events and the
terminal error event of a failing run. -/
theorem stream_event_protocol_witness :
    stream_agent_response (GraphRun.success
        [⟨"agent", [⟨Role.assistant, "", [⟨"1", "calculate_tool", "2 ** 3"⟩], none, none⟩]⟩,
         ⟨"tools", [⟨Role.tool, "8.0", [], some "calculate_tool", some "1"⟩]⟩,
         ⟨"agent", [⟨Role.assistant, "The result is 8", [], none, none⟩]⟩]) =
      [StreamEvent.toolCallE "calculate_tool" "2 ** 3",
       StreamEvent.toolResultE "calculate_tool" "8.0",
       StreamEvent.answerE "The result is 8", StreamEvent.doneE] ∧
    (stream_agent_response (GraphRun.failure [] "model backend down")).getLast? =
      some (StreamEvent.errorE "model backend down") :=
  ⟨(stream_event_protocol "" "The result is 8" "8.0" ⟨"1", "calculate_tool", "2 ** 3"⟩
      (some "calculate_tool") (some "1") (by decide) [] "model backend down").1,
   (stream_event_protocol "" "The result is 8" "8.0" ⟨"1", "calculate_tool", "2 ** 3"⟩
      (some "calculate_tool") (some "1") (by decide) [] "model backend down").2.2.2.2.2.2.2⟩

end Spec2Proof



